import Mathlib

/-!
Verification of the rekor CLI verifier (src/main.py) and of the Merkle
proof-checking core it calls.

The repository ships only `main.py` (plus tests); the modules `merkle_proof`
and `util` that provide `verify_inclusion`, `verify_consistency`,
`compute_leaf_hash`, `extract_public_key` and `verify_artifact_signature` are
not part of the source tree, so the Merkle core below is modelled from the
specification text, while the `main.py` functions are embedded directly from
the source.
-/

/-- Modelled from the spec: HashPrimitive (section 4.1). A domain-separated
hash pair: `leafHash` over raw bytes, `nodeHash` over two digests. The digest
type `D` is abstract, mirroring the `hasher` parameter that the source passes
to `verify_inclusion` and `verify_consistency` (`DefaultHasher`). -/
structure Hasher (D : Type) where
  leafHash : List Nat → D
  nodeHash : D → D → D

/-- Modelled from the spec: section 4.1's domain separation, building a
`Hasher` from one underlying hash function by prepending a leaf byte 0 to
data and a node byte 1 to the concatenation of the two children. -/
def mkDomainHasher (hashFn : List Nat → List Nat) : Hasher (List Nat) :=
  { leafHash := fun data => hashFn (0 :: data)
  , nodeHash := fun l r => hashFn (1 :: (l ++ r)) }

/-- Modelled from the spec: LeafHasher (section 4.2), `computeLeafHash` calls
`leafHash` on the entry body exactly as received. -/
def computeLeafHash {D : Type} (h : Hasher D) (entryBody : List Nat) : D :=
  h.leafHash entryBody

/-- Fuel-driven helper for `maxPow2Lt`: with enough fuel it returns the
largest power of two strictly below `n` (for `n ≥ 2`). -/
def maxPow2LtAux : Nat → Nat → Nat
  | 0, _ => 1
  | fuel + 1, n => if n ≤ 2 then 1 else 2 * maxPow2LtAux fuel ((n + 1) / 2)

/-- Modelled from the spec: the split point of section 4.3's decomposition,
the largest power of two strictly below the current subtree size (so that for
a size in `(k, 2k]` the left subtree has `k` leaves). -/
def maxPow2Lt (n : Nat) : Nat := maxPow2LtAux n n

/-- Structural errors versus cryptographic mismatches, the error taxonomy of
spec section 7 for the proof verifiers. -/
inductive MerkleErr : Type where
  | invalidProof : MerkleErr
  | rootMismatch : MerkleErr
deriving DecidableEq

/-- Modelled from the spec: the recursive audit-path reconstruction of
section 4.3. `rev` is the audit path ordered root-most sibling first (the
reverse of the wire order). At each step the subtree of size `size` is split
at `maxPow2Lt size`; descending left combines the computed hash on the left
with the consumed sibling on the right, descending right the other way
around, with the adjusted index and adjusted size tracked for unbalanced
right-edge subtrees. `none` means the path length does not match the
structure of `(index, size)`. -/
def rootFromTop {D : Type} (h : Hasher D) : List D → Nat → Nat → D → Option D
  | [], _, size, leaf => if size ≤ 1 then some leaf else none
  | s :: rest, index, size, leaf =>
    if size ≤ 1 then none
    else if index < maxPow2Lt size then
      (rootFromTop h rest index (maxPow2Lt size) leaf).map (fun l => h.nodeHash l s)
    else
      (rootFromTop h rest (index - maxPow2Lt size) (size - maxPow2Lt size) leaf).map
        (fun r => h.nodeHash s r)

/-- Fuel-driven helper for `requiredPathLen`; fuel `size` is always enough
because the subtree size strictly decreases at each split. -/
def requiredPathLenAux : Nat → Nat → Nat → Nat
  | 0, _, _ => 0
  | fuel + 1, index, size =>
    if size ≤ 1 then 0
    else if index < maxPow2Lt size then
      requiredPathLenAux fuel index (maxPow2Lt size) + 1
    else
      requiredPathLenAux fuel (index - maxPow2Lt size) (size - maxPow2Lt size) + 1

/-- Modelled from the spec: the audit-path length structurally required for
`(index, treeSize)` by section 4.3's decomposition. -/
def requiredPathLen (index size : Nat) : Nat := requiredPathLenAux size index size

/-- Modelled from the spec: `verifyInclusion` (section 4.3). Fails with
`InvalidProof` if `index ≥ treeSize` or if the audit path length does not
match what is structurally required; otherwise reconstructs the root and
compares it to `claimedRoot`, raising `RootMismatch` on disagreement. -/
def verifyInclusion {D : Type} [DecidableEq D] (h : Hasher D) (index treeSize : Nat)
    (leaf : D) (path : List D) (root : D) : Except MerkleErr Unit :=
  if treeSize ≤ index then .error .invalidProof
  else
    match rootFromTop h path.reverse index treeSize leaf with
    | none => .error .invalidProof
    | some r => if r = root then .ok () else .error .rootMismatch

/-- Fuel-driven bit length of a natural number (position of highest set bit
plus one). -/
def bitLenAux : Nat → Nat → Nat
  | 0, _ => 0
  | fuel + 1, n => if n = 0 then 0 else bitLenAux fuel (n / 2) + 1

/-- Bit length, used by the consistency decomposition to count the inner
levels of the path. -/
def bitLen (n : Nat) : Nat := bitLenAux n n

/-- Fuel-driven population count. -/
def popcountAux : Nat → Nat → Nat
  | 0, _ => 0
  | fuel + 1, n => if n = 0 then 0 else n % 2 + popcountAux fuel (n / 2)

/-- Population count, the number of border levels of the decomposition. -/
def popcount (n : Nat) : Nat := popcountAux n n

/-- Fuel-driven count of trailing zero bits. -/
def trailingZerosAux : Nat → Nat → Nat
  | 0, _ => 0
  | fuel + 1, n => if n % 2 = 1 ∨ n = 0 then 0 else trailingZerosAux fuel (n / 2) + 1

/-- Trailing zero bits of `firstSize`: how far the old tree's boundary falls
exactly at complete-subtree edges, where section 4.4 says one fewer hash is
needed than in the unaligned case. -/
def trailingZeros (n : Nat) : Nat := trailingZerosAux n n

/-- Modelled from the spec: inner chain of section 4.4's reconstruction; at
each level the consumed sibling goes on the side selected by the low bit of
the index. -/
def chainInner {D : Type} (h : Hasher D) : D → List D → Nat → D
  | seed, [], _ => seed
  | seed, s :: rest, index =>
    chainInner h (if index % 2 = 0 then h.nodeHash seed s else h.nodeHash s seed) rest (index / 2)

/-- Modelled from the spec: like `chainInner` but only absorbs siblings on
right-descending levels, reconstructing the old root inside the new tree. -/
def chainInnerRight {D : Type} (h : Hasher D) : D → List D → Nat → D
  | seed, [], _ => seed
  | seed, s :: rest, index =>
    chainInnerRight h (if index % 2 = 1 then h.nodeHash s seed else seed) rest (index / 2)

/-- Modelled from the spec: border chain collapsing the right-edge levels,
where the computed hash is always the right input. -/
def chainBorderRight {D : Type} (h : Hasher D) : D → List D → D
  | seed, [] => seed
  | seed, s :: rest => chainBorderRight h (h.nodeHash s seed) rest

/-- Modelled from the spec: the general (unequal, nonzero sizes) case of
section 4.4. The decomposition begins at the complete subtrees of the old
tree: when `firstSize` is exactly a power of two the old root itself seeds
the chain and one fewer proof hash is consumed, otherwise the first proof
hash is the seed. Both roots are then reconstructed from the single shared
path and compared; a wrong path length is `InvalidProof`, a root
disagreement is `RootMismatch`. -/
def verifyConsistencyGeneral {D : Type} [DecidableEq D] (h : Hasher D) (size1 size2 : Nat)
    (proof : List D) (p0 : D) (root1 root2 : D) : Except MerkleErr Unit :=
  let shift := trailingZeros size1
  let inner0 := bitLen ((size1 - 1) ^^^ (size2 - 1))
  let border := popcount ((size1 - 1) >>> inner0)
  let inner := inner0 - shift
  let sp : D × Nat := if size1 = 2 ^ shift then (root1, 0) else (p0, 1)
  if proof.length ≠ sp.2 + inner + border then .error .invalidProof
  else
    let rest := proof.drop sp.2
    let innerPart := rest.take inner
    let borderPart := rest.drop inner
    let mask := (size1 - 1) >>> shift
    let hash1 := chainBorderRight h (chainInnerRight h sp.1 innerPart mask) borderPart
    if hash1 = root1 then
      let hash2 := chainBorderRight h (chainInner h sp.1 innerPart mask) borderPart
      if hash2 = root2 then .ok () else .error .rootMismatch
    else .error .rootMismatch

/-- Modelled from the spec: `verifyConsistency` (section 4.4). Sizes with
`lastSize < firstSize` are malformed. When the sizes are equal the only valid
proof is the empty hash sequence with `root1 = root2` exactly, else
`RootMismatch` (the unconditional invariant of section 3); when `firstSize`
is zero an empty log is a prefix of anything and no hashes are consumed;
otherwise the shared-path general case runs. -/
def verifyConsistency {D : Type} [DecidableEq D] (h : Hasher D) (size1 size2 : Nat)
    (proof : List D) (root1 root2 : D) : Except MerkleErr Unit :=
  if size2 < size1 then .error .invalidProof
  else if size1 = size2 then
    match proof with
    | _ :: _ => .error .invalidProof
    | [] => if root1 = root2 then .ok () else .error .rootMismatch
  else if size1 = 0 then
    match proof with
    | _ :: _ => .error .invalidProof
    | [] => .ok ()
  else
    match proof with
    | [] => .error .invalidProof
    | p0 :: _ => verifyConsistencyGeneral h size1 size2 proof p0 root1 root2

/-- Python values as they appear in the parsed JSON records that `main.py`
manipulates. -/
inductive PyVal : Type where
  | str : String → PyVal
  | bytes : List Nat → PyVal
  | int : Int → PyVal
  | bool : Bool → PyVal
  | dict : List (String × PyVal) → PyVal
  | list : List PyVal → PyVal
  | none : PyVal

/-- Python exceptions that the embedded `main.py` code can raise. -/
inductive PyErr : Type where
  | typeError : PyErr
  | keyError : PyErr
  | attributeError : PyErr
  | indexError : PyErr
  | binasciiError : PyErr
  | jsonError : PyErr
  | certError : PyErr
  | rootMismatchError : PyErr
  | valueError : PyErr
deriving DecidableEq

/-- Network failures that `rekor_request` catches (`requests.HTTPError` and
`TimeoutError`, src/main.py lines 26-31). -/
inductive FetchErr : Type where
  | httpError : FetchErr
  | timeoutError : FetchErr
deriving DecidableEq

/-- Python subscript `v[key]` with a string key: dict lookup (KeyError when
missing); subscripting a str, bytes, int, bool, list or None with a string
key raises TypeError. -/
def pySubscript : PyVal → String → Except PyErr PyVal
  | .dict entries, key =>
    match List.lookup key entries with
    | some v => .ok v
    | Option.none => .error .keyError
  | _, _ => .error .typeError

/-- Chained Python subscripts `v[k1][k2]...`, evaluated left to right. -/
def pyGetPath : PyVal → List String → Except PyErr PyVal
  | v, [] => .ok v
  | v, k :: ks =>
    match pySubscript v k with
    | .error e => .error e
    | .ok w => pyGetPath w ks

/-- Python truthiness, as used by `if not proof:` (src/main.py line 94). -/
def pyTruthy : PyVal → Bool
  | .str s => !s.isEmpty
  | .bytes bs => !bs.isEmpty
  | .int n => n != 0
  | .bool b => b
  | .dict entries => !entries.isEmpty
  | .list xs => !xs.isEmpty
  | .none => false

/-- The external collaborators of `main.py`: the stdlib decoders and the
`util` / `merkle_proof` functions imported at src/main.py lines 9-11. Each is
abstract here; `b64` returns `none` on invalid base64 (binascii.Error). -/
structure Env : Type where
  b64 : String → Option (List Nat)
  jsonLoads : List Nat → Except PyErr PyVal
  extractPublicKey : List Nat → Except PyErr (List Nat)
  verifySignature : List Nat → List Nat → String → Bool
  computeLeafHash : PyVal → Except PyErr (List Nat)
  verifyInclusion : PyVal → PyVal → List Nat → PyVal → PyVal → Except MerkleErr Unit

/-- `base64.b64decode` applied to a Python value: decodes a str via the
environment, anything that is not str or bytes raises TypeError. All values
fed to it by `main.py` come from parsed JSON, hence are str. -/
def pyB64decode (env : Env) : PyVal → Except PyErr (List Nat)
  | .str s =>
    match env.b64 s with
    | some bs => .ok bs
    | Option.none => .error .binasciiError
  | _ => .error .typeError

/-- How the exceptions of `merkle_proof` surface in Python: RootMismatchError
is its own class, malformed proofs raise ValueError. -/
def merkleErrToPy : MerkleErr → PyErr
  | .rootMismatch => .rootMismatchError
  | .invalidProof => .valueError

/-- Observable calls made by `inclusion` to its collaborators, recorded in
order. -/
inductive Ev : Type where
  | extractPK : List Nat → Ev
  | verifySig : Bool → Ev
  | computeLeaf : PyVal → Ev
  | verifyIncl : List Nat → Ev

/-- src/main.py lines 79-86 of `inclusion`: extract the body, decode it,
parse the JSON, read the signature, and read the certificate field. Line 86
subscripts `log_body` (the still-encoded base64 string) rather than
`log_json`. Returns the body, the decoded signature bytes, and the raw
certificate field. -/
def inclusionPrelude (env : Env) (log_data : PyVal) :
    Except PyErr (PyVal × List Nat × PyVal) :=
  match pySubscript log_data ("body") with
  | .error e => .error e
  | .ok log_body =>
    match pyB64decode env log_body with
    | .error e => .error e
    | .ok decoded =>
      match env.jsonLoads decoded with
      | .error e => .error e
      | .ok log_json =>
        match pyGetPath log_json [("spec"), ("signature"), ("content")] with
        | .error e => .error e
        | .ok sig_raw =>
          match pyB64decode env sig_raw with
          | .error e => .error e
          | .ok signature =>
            match pyGetPath log_body [("spec"), ("signature"), ("publicKey"), ("content")] with
            | .error e => .error e
            | .ok cert_raw => .ok (log_body, signature, cert_raw)

/-- src/main.py lines 87-114 of `inclusion`: decode the certificate, extract
the public key, check the artifact signature (returning False on failure),
fetch and truthiness-check the proof, compute the leaf hash on the body, and
run `verify_inclusion`, converting RootMismatchError to False and declaring
success otherwise. `proofFetch` is the outcome of `get_verification_proof`.
The second component records the collaborator calls in order. -/
def inclusionVerifyStage (env : Env) (log_body : PyVal) (signature : List Nat)
    (cert_raw : PyVal) (artifact : String) (proofFetch : Except PyErr PyVal) :
    Except PyErr Bool × List Ev :=
  match pyB64decode env cert_raw with
  | .error e => (.error e, [])
  | .ok certificate =>
    match env.extractPublicKey certificate with
    | .error e => (.error e, [Ev.extractPK certificate])
    | .ok public_key =>
      if env.verifySignature signature public_key artifact then
        match proofFetch with
        | .error e => (.error e, [Ev.extractPK certificate, Ev.verifySig true])
        | .ok proof =>
          if pyTruthy proof then
            match env.computeLeafHash log_body with
            | .error e => (.error e, [Ev.extractPK certificate, Ev.verifySig true])
            | .ok leaf_hash =>
              match pySubscript proof ("logIndex") with
              | .error e =>
                (.error e, [Ev.extractPK certificate, Ev.verifySig true, Ev.computeLeaf log_body])
              | .ok li =>
                match pySubscript proof ("treeSize") with
                | .error e =>
                  (.error e, [Ev.extractPK certificate, Ev.verifySig true, Ev.computeLeaf log_body])
                | .ok ts =>
                  match pySubscript proof ("hashes") with
                  | .error e =>
                    (.error e, [Ev.extractPK certificate, Ev.verifySig true, Ev.computeLeaf log_body])
                  | .ok hs =>
                    match pySubscript proof ("rootHash") with
                    | .error e =>
                      (.error e, [Ev.extractPK certificate, Ev.verifySig true, Ev.computeLeaf log_body])
                    | .ok rh =>
                      match env.verifyInclusion li ts leaf_hash hs rh with
                      | .ok () =>
                        (.ok true, [Ev.extractPK certificate, Ev.verifySig true,
                          Ev.computeLeaf log_body, Ev.verifyIncl leaf_hash])
                      | .error MerkleErr.rootMismatch =>
                        (.ok false, [Ev.extractPK certificate, Ev.verifySig true,
                          Ev.computeLeaf log_body, Ev.verifyIncl leaf_hash])
                      | .error e =>
                        (.error (merkleErrToPy e), [Ev.extractPK certificate, Ev.verifySig true,
                          Ev.computeLeaf log_body, Ev.verifyIncl leaf_hash])
          else (.ok false, [Ev.extractPK certificate, Ev.verifySig true])
      else (.ok false, [Ev.extractPK certificate, Ev.verifySig false])

/-- src/main.py lines 64-114: the whole `inclusion` operation on an already
fetched log entry `log_data`, an artifact path, and the outcome of the proof
refetch. An uncaught Python exception is `.error`; `.ok b` is the returned
boolean. -/
def inclusion (env : Env) (log_data : PyVal) (artifact : String)
    (proofFetch : Except PyErr PyVal) : Except PyErr Bool × List Ev :=
  match inclusionPrelude env log_data with
  | .error e => (.error e, [])
  | .ok (log_body, signature, cert_raw) =>
    inclusionVerifyStage env log_body signature cert_raw artifact proofFetch

/-- src/main.py lines 16-31: `rekor_request` returns the parsed JSON, or None
after catching an HTTP error or a timeout. -/
def rekor_request : Except FetchErr PyVal → Option PyVal
  | .ok v => some v
  | .error _ => Option.none

/-- src/main.py lines 34-47: `get_log_entry` indexes the response with its
first key, `data[list(data.keys())[0]]`. On a None response the attribute
access `data.keys()` raises AttributeError; an empty dict raises IndexError;
a non-dict raises AttributeError. -/
def get_log_entry (fetch : Except FetchErr PyVal) : Except PyErr PyVal :=
  match rekor_request fetch with
  | Option.none => .error .attributeError
  | some (PyVal.dict []) => .error .indexError
  | some (PyVal.dict ((_, v) :: _)) => .ok v
  | some _ => .error .attributeError

/-- The failure message printed at src/main.py line 158. -/
def consistencyFailureMsg : String := "Consistency verification failed:"

/-- The success message printed at src/main.py line 160 (with the source's
spelling). -/
def consistencySuccessMsg : String := "Consitency verification successful"

/-- A checkpoint record as documented at src/main.py lines 133-137. -/
structure Checkpoint : Type where
  treeID : String
  treeSize : Nat
  rootHash : String

/-- src/main.py lines 128-160: `consistency` reads the sizes and roots of the
previous and the fetched latest checkpoint, runs `verify_consistency` on the
fetched proof hashes, catches only RootMismatchError (printing the failure
message), and then unconditionally prints the success message. The result
collects the printed messages in order; an uncaught exception is `.error`. -/
def consistency (verify : Nat → Nat → List String → String → String → Except MerkleErr Unit)
    (prev_checkpoint chkpoint : Checkpoint) (proofHashes : List String) :
    Except MerkleErr (List String) :=
  let size1 := prev_checkpoint.treeSize
  let size2 := chkpoint.treeSize
  let root1 := prev_checkpoint.rootHash
  let root2 := chkpoint.rootHash
  match verify size1 size2 proofHashes root1 root2 with
  | .ok () => .ok [consistencySuccessMsg]
  | .error MerkleErr.rootMismatch => .ok [consistencyFailureMsg, consistencySuccessMsg]
  | .error e => .error e

/-- A concrete digest-type instantiation for witnesses, standing in for the
hasher parameter exactly as `DefaultHasher` does in the source. -/
def tinyHasher : Hasher Nat :=
  { leafHash := fun data => data.foldl (fun a b => 2 * a + b + 1) 1
  , nodeHash := fun l r => 2 * l + 3 * r + 5 }

/-- A hasher over hex-string digests, the representation `consistency` hands
to `verify_consistency` in the source. -/
def strHasher : Hasher String :=
  { leafHash := fun data => toString data.length
  , nodeHash := fun l r => l ++ r }

/-- Concrete base64 table for witnesses. -/
def wB64 : String → Option (List Nat) := fun s =>
  if s = "Qm9keQ==" then some [1]
  else if s = "Qm9keTI=" then some [9]
  else if s = "c2ln" then some [2]
  else if s = "Y2VydA==" then some [3]
  else Option.none

/-- Concrete decoded log-entry JSON for witnesses: a record with
spec.signature.content and spec.signature.publicKey.content. -/
def wLogJson : PyVal :=
  PyVal.dict [("spec", PyVal.dict [("signature", PyVal.dict
    [("content", PyVal.str ("c2ln")),
     ("publicKey", PyVal.dict [("content", PyVal.str ("Y2VydA=="))])])])]

/-- Concrete JSON parser for witnesses. -/
def wJson : List Nat → Except PyErr PyVal := fun bs =>
  if bs = [1] then .ok wLogJson
  else if bs = [9] then .ok wLogJson
  else .error .jsonError

/-- Concrete environment for witnesses. -/
def wEnv : Env :=
  { b64 := wB64
  , jsonLoads := wJson
  , extractPublicKey := fun bs => if bs = [3] then .ok [7] else .error .certError
  , verifySignature := fun sig pk artifact =>
      sig == [2] && pk == [7] && artifact == "artifact.md"
  , computeLeafHash := fun v =>
      match v with
      | PyVal.str s => .ok [s.length]
      | _ => .error .typeError
  , verifyInclusion := fun _ _ _ _ rh =>
      match rh with
      | PyVal.str ("good") => .ok ()
      | PyVal.str ("bad") => .error .rootMismatch
      | _ => .error .invalidProof }

/-- A concrete inclusion proof record whose root makes `wEnv`'s verifier
report a root mismatch. -/
def wProofBad : PyVal :=
  PyVal.dict [("logIndex", PyVal.int 1), ("treeSize", PyVal.int 2),
    ("hashes", PyVal.list []), ("rootHash", PyVal.str ("bad"))]

/-- A concrete inclusion proof record whose root makes `wEnv`'s verifier
raise a malformed-proof error. -/
def wProofUgly : PyVal :=
  PyVal.dict [("logIndex", PyVal.int 1), ("treeSize", PyVal.int 2),
    ("hashes", PyVal.list []), ("rootHash", PyVal.str ("ugly"))]

/-- A concrete inclusion proof record accepted by `wEnv`'s verifier. -/
def wProofGood : PyVal :=
  PyVal.dict [("logIndex", PyVal.int 1), ("treeSize", PyVal.int 2),
    ("hashes", PyVal.list []), ("rootHash", PyVal.str ("good"))]

theorem maxPow2LtAux_pos (fuel n : Nat) : 1 ≤ maxPow2LtAux fuel n := by
  induction fuel generalizing n with
  | zero => simp [maxPow2LtAux]
  | succ fuel ih =>
    simp only [maxPow2LtAux]
    split
    · exact Nat.le_refl 1
    · have := ih ((n + 1) / 2)
      omega

theorem maxPow2LtAux_lt (fuel n : Nat) (hn : 2 ≤ n) : maxPow2LtAux fuel n < n := by
  induction fuel generalizing n with
  | zero => simpa [maxPow2LtAux] using hn
  | succ fuel ih =>
    simp only [maxPow2LtAux]
    split
    · omega
    · rename_i hgt
      have h2 : 2 ≤ (n + 1) / 2 := by omega
      have := ih ((n + 1) / 2) h2
      omega

theorem maxPow2Lt_pos (n : Nat) : 1 ≤ maxPow2Lt n := maxPow2LtAux_pos n n

theorem maxPow2Lt_lt (n : Nat) (hn : 2 ≤ n) : maxPow2Lt n < n := maxPow2LtAux_lt n n hn

theorem rootFromTop_length_aux {D : Type} (h : Hasher D) (rev : List D) :
    ∀ (index size : Nat) (leaf r : D) (fuel : Nat), size ≤ fuel →
      rootFromTop h rev index size leaf = some r →
      rev.length = requiredPathLenAux fuel index size := by
  induction rev with
  | nil =>
    intro index size leaf r fuel hfuel hr
    simp only [rootFromTop] at hr
    split at hr
    · rename_i hs
      cases fuel with
      | zero => simp [requiredPathLenAux]
      | succ fuel => simp [requiredPathLenAux, hs]
    · exact absurd hr (by simp)
  | cons s rest ih =>
    intro index size leaf r fuel hfuel hr
    simp only [rootFromTop] at hr
    split at hr
    · exact absurd hr (by simp)
    · rename_i hs
      have hsz : 2 ≤ size := by omega
      have hk1 : 1 ≤ maxPow2Lt size := maxPow2Lt_pos size
      have hklt : maxPow2Lt size < size := maxPow2Lt_lt size hsz
      cases fuel with
      | zero => omega
      | succ fuel =>
        split at hr
        · rename_i hi
          rw [Option.map_eq_some'] at hr
          obtain ⟨r0, hr0, -⟩ := hr
          have hlen := ih index (maxPow2Lt size) leaf r0 fuel (by omega) hr0
          simp [requiredPathLenAux, hs, hi, hlen]
        · rename_i hi
          rw [Option.map_eq_some'] at hr
          obtain ⟨r0, hr0, -⟩ := hr
          have hlen := ih (index - maxPow2Lt size) (size - maxPow2Lt size) leaf r0 fuel
            (by omega) hr0
          simp [requiredPathLenAux, hs, hi, hlen]

theorem rootFromTop_length {D : Type} (h : Hasher D) (rev : List D) (index size : Nat)
    (leaf r : D) (hr : rootFromTop h rev index size leaf = some r) :
    rev.length = requiredPathLen index size :=
  rootFromTop_length_aux h rev index size leaf r size (Nat.le_refl size) hr

/-- C6: for every index and treeSize with index at least treeSize, and for
every audit path whose length does not match what is structurally required
for the pair, verifyInclusion fails with InvalidProof, not RootMismatch. -/
theorem verifyInclusion_malformed_invalid {D : Type} [DecidableEq D] (h : Hasher D)
    (index size : Nat) (leaf root : D) (path : List D)
    (hbad : size ≤ index ∨ path.length ≠ requiredPathLen index size) :
    verifyInclusion h index size leaf path root = .error .invalidProof := by
  rcases hbad with hle | hlen
  · simp [verifyInclusion, hle]
  · by_cases hle : size ≤ index
    · simp [verifyInclusion, hle]
    · have hnone : rootFromTop h path.reverse index size leaf = none := by
        cases hr : rootFromTop h path.reverse index size leaf with
        | none => rfl
        | some r =>
          have := rootFromTop_length h path.reverse index size leaf r hr
          rw [List.length_reverse] at this
          exact absurd this hlen
      simp [verifyInclusion, hle, hnone]

/-- Witness for C6 at a concrete malformed input. -/
theorem verifyInclusion_malformed_invalid_witness :
    ((3 : Nat) ≤ 5 ∨ ([] : List Nat).length ≠ requiredPathLen 5 3) ∧
      verifyInclusion tinyHasher 5 3 0 [] 1 = .error .invalidProof :=
  ⟨Or.inl (by decide),
    verifyInclusion_malformed_invalid tinyHasher 5 3 0 1 [] (Or.inl (by decide))⟩

/-- C5: for every tree size n and every root R, verifyConsistency with equal
sizes, the empty proof and equal roots succeeds; with distinct roots it fails
with RootMismatch; and when the sizes are equal the only accepted consistency
proof is the empty hash sequence with equal roots. -/
theorem verifyConsistency_equal_sizes {D : Type} [DecidableEq D] (h : Hasher D)
    (n : Nat) (R R1 R2 : D) (proof : List D) :
    verifyConsistency h n n [] R R = .ok () ∧
    (R1 ≠ R2 → verifyConsistency h n n [] R1 R2 = .error .rootMismatch) ∧
    (verifyConsistency h n n proof R1 R2 = .ok () → proof = [] ∧ R1 = R2) := by
  refine ⟨?_, ?_, ?_⟩
  · simp [verifyConsistency]
  · intro hne
    simp [verifyConsistency, hne]
  · intro hok
    cases proof with
    | cons p ps => simp [verifyConsistency] at hok
    | nil =>
      refine ⟨rfl, ?_⟩
      by_cases hr : R1 = R2
      · exact hr
      · simp [verifyConsistency, hr] at hok

/-- Witness for C5 at concrete distinct roots. -/
theorem verifyConsistency_equal_sizes_witness :
    (1 : Nat) ≠ 2 ∧ verifyConsistency tinyHasher 3 3 [] (1 : Nat) 2 = .error .rootMismatch :=
  ⟨by decide, (verifyConsistency_equal_sizes tinyHasher 3 0 1 2 [5]).2.1 (by decide)⟩

/-- C7 counterexample: at firstSize = lastSize = 0 with distinct roots the
consistency check fails with RootMismatch instead of succeeding, so the
claim's quantification over every n and every R1 is false at n = 0. -/
theorem verifyConsistency_zero_zero_mismatch :
    verifyConsistency tinyHasher 0 0 [] (1 : Nat) 2 = .error .rootMismatch := rfl

/-- C7 (amended): for every n at least 1, every R1 and every R2,
verifyConsistency 0 n [] R1 R2 succeeds, consuming no hashes; at n = 0 the
equal-size rule governs instead and requires R1 = R2. -/
theorem verifyConsistency_empty_prefix {D : Type} [DecidableEq D] (h : Hasher D)
    (n : Nat) (R1 R2 : D) (hn : 1 ≤ n) :
    verifyConsistency h 0 n [] R1 R2 = .ok () := by
  have h1 : ¬ (n < 0) := by omega
  have h2 : ¬ ((0 : Nat) = n) := by omega
  simp [verifyConsistency, h1, h2]

/-- Witness for C7's amended statement at n = 2. -/
theorem verifyConsistency_empty_prefix_witness :
    (1 : Nat) ≤ 2 ∧ verifyConsistency tinyHasher 0 2 [] (3 : Nat) 4 = .ok () :=
  ⟨by decide, verifyConsistency_empty_prefix tinyHasher 2 3 4 (by decide)⟩

/-- C1: the consistency operation catches RootMismatchError, prints the
failure message, and then still falls through to the unconditional success
print, so it reports success although the consistency check failed, contrary
to the claim. Shown at a concrete pair of equal-size checkpoints with
distinct roots, using the modelled verifier exactly as the source passes
verify_consistency. -/
theorem consistency_success_after_root_mismatch :
    consistency (verifyConsistency strHasher)
      ⟨"tid", 5, "rootA"⟩ ⟨"tid", 5, "rootB"⟩ [] =
      .ok [consistencyFailureMsg, consistencySuccessMsg] := rfl

/-- C2: on a well-formed log entry whose body is valid base64 of a JSON
record containing spec.signature.publicKey.content, the inclusion operation
raises TypeError (line 86 subscripts the still-encoded base64 string instead
of the decoded JSON) and never reaches extract_public_key: the recorded call
trace is empty. -/
theorem inclusion_typeerror_on_wellformed_entry :
    inclusion wEnv (PyVal.dict [("body", PyVal.str ("Qm9keQ=="))]) ("artifact.md")
      (.ok wProofGood) = (.error .typeError, []) := rfl

/-- C3: on a well-formed entry the inclusion operation raises TypeError
before the artifact-signature check ever runs; the call trace is empty, so
in particular it contains no verifySig and no verifyIncl event, contrary to
the claim that the signature check runs on every inclusion call. -/
theorem inclusion_signature_check_never_runs :
    (inclusion wEnv (PyVal.dict [("body", PyVal.str ("Qm9keTI="))]) ("artifact.md")
      (.ok wProofGood)).2 = [] ∧
    (inclusion wEnv (PyVal.dict [("body", PyVal.str ("Qm9keTI="))]) ("artifact.md")
      (.ok wProofGood)).1 = .error .typeError := ⟨rfl, rfl⟩

/-- C8: whenever the fetched entry's body field is a string (as every
JSON-carried body is), the inclusion operation raises an exception in its
prelude and its call trace is empty: no leaf hash is ever computed from the
body and nothing is ever passed to verify_inclusion, contrary to the claim. -/
theorem inclusion_never_reaches_leaf_hash (env : Env) (log_data : PyVal) (s : String)
    (artifact : String) (proofFetch : Except PyErr PyVal)
    (hbody : pySubscript log_data ("body") = .ok (PyVal.str s)) :
    (∃ e, (inclusion env log_data artifact proofFetch).1 = .error e) ∧
      (inclusion env log_data artifact proofFetch).2 = [] := by
  have hpre : ∀ t, inclusionPrelude env log_data ≠ .ok t := by
    intro t hp
    unfold inclusionPrelude at hp
    split at hp
    · simp at hp
    · rename_i log_body heq
      rw [hbody] at heq
      injection heq with heq2
      subst heq2
      split at hp
      · simp at hp
      · split at hp
        · simp at hp
        · split at hp
          · simp at hp
          · split at hp
            · simp at hp
            · simp [pyGetPath, pySubscript] at hp
  cases hp : inclusionPrelude env log_data with
  | error e => exact ⟨⟨e, by simp [inclusion, hp]⟩, by simp [inclusion, hp]⟩
  | ok t => exact absurd hp (hpre t)

/-- Witness for C8 at a concrete entry. -/
theorem inclusion_never_reaches_leaf_hash_witness :
    pySubscript (PyVal.dict [("body", PyVal.str ("YWJj"))]) ("body")
        = .ok (PyVal.str ("YWJj")) ∧
      (inclusion wEnv (PyVal.dict [("body", PyVal.str ("YWJj"))]) ("artifact.md")
        (.ok wProofGood)).2 = [] :=
  ⟨rfl, (inclusion_never_reaches_leaf_hash wEnv
    (PyVal.dict [("body", PyVal.str ("YWJj"))]) ("YWJj") ("artifact.md")
    (.ok wProofGood) rfl).2⟩

/-- C4: in the verification stage of inclusion (src/main.py lines 87-114),
if verify_inclusion raises RootMismatchError then the operation returns
False, and it returns True only when the artifact-signature check succeeded
and the verify_inclusion call returned without raising. -/
theorem inclusion_false_on_root_mismatch (env : Env) (body : PyVal)
    (sig certificate pk lh : List Nat) (cert_raw : PyVal) (artifact : String)
    (proofFetch : Except PyErr PyVal) (pv li ts hs rh : PyVal) :
    (pyB64decode env cert_raw = .ok certificate →
      env.extractPublicKey certificate = .ok pk →
      env.verifySignature sig pk artifact = true →
      proofFetch = .ok pv →
      pyTruthy pv = true →
      env.computeLeafHash body = .ok lh →
      pySubscript pv ("logIndex") = .ok li →
      pySubscript pv ("treeSize") = .ok ts →
      pySubscript pv ("hashes") = .ok hs →
      pySubscript pv ("rootHash") = .ok rh →
      env.verifyInclusion li ts lh hs rh = .error .rootMismatch →
      (inclusionVerifyStage env body sig cert_raw artifact proofFetch).1 = .ok false) ∧
    ((inclusionVerifyStage env body sig cert_raw artifact proofFetch).1 = .ok true →
      ∃ (certificate2 pk2 lh2 : List Nat) (li2 ts2 hs3 rh2 : PyVal),
        pyB64decode env cert_raw = .ok certificate2 ∧
        env.extractPublicKey certificate2 = .ok pk2 ∧
        env.verifySignature sig pk2 artifact = true ∧
        env.verifyInclusion li2 ts2 lh2 hs3 rh2 = .ok ()) := by
  constructor
  · intro hcert hpk hsig hpf htr hlh hli hts hhs hrh hv
    simp [inclusionVerifyStage, hcert, hpk, hsig, hpf, htr, hlh, hli, hts, hhs, hrh, hv]
  · intro hres
    simp only [inclusionVerifyStage] at hres
    split at hres
    · simp at hres
    · rename_i certificate3 hcert
      split at hres
      · simp at hres
      · rename_i pk3 hpk
        split at hres
        · rename_i hsig
          split at hres
          · simp at hres
          · rename_i pv3 hpf
            split at hres
            · split at hres
              · simp at hres
              · rename_i lh3 hlh
                split at hres
                · simp at hres
                · rename_i li3 hli
                  split at hres
                  · simp at hres
                  · rename_i ts3 hts
                    split at hres
                    · simp at hres
                    · rename_i hs4 hhs
                      split at hres
                      · simp at hres
                      · rename_i rh3 hrh
                        split at hres
                        · rename_i hv
                          exact ⟨certificate3, pk3, lh3, li3, ts3, hs4, rh3,
                            hcert, hpk, hsig, hv⟩
                        · simp at hres
                        · simp at hres
            · simp at hres
        · simp at hres

/-- Witness for C4 at a concrete root-mismatching proof. -/
theorem inclusion_false_on_root_mismatch_witness :
    wEnv.verifyInclusion (PyVal.int 1) (PyVal.int 2) [1] (PyVal.list [])
        (PyVal.str ("bad")) = .error .rootMismatch ∧
      (inclusionVerifyStage wEnv (PyVal.str ("x")) [2] (PyVal.str ("Y2VydA=="))
        ("artifact.md") (.ok wProofBad)).1 = .ok false :=
  ⟨rfl, (inclusion_false_on_root_mismatch wEnv (PyVal.str ("x")) [2] [3] [7] [1]
      (PyVal.str ("Y2VydA==")) ("artifact.md") (.ok wProofBad) wProofBad
      (PyVal.int 1) (PyVal.int 2) (PyVal.list []) (PyVal.str ("bad"))).1
    rfl rfl rfl rfl rfl rfl rfl rfl rfl rfl rfl⟩

/-- C9: in the verification stage of inclusion only RootMismatchError is
converted to a False return; any other exception raised by verify_inclusion
(such as the ValueError of a malformed proof) propagates uncaught to the
caller instead of producing a boolean. -/
theorem inclusion_root_mismatch_only_to_false (env : Env) (body : PyVal)
    (sig certificate pk lh : List Nat) (cert_raw : PyVal) (artifact : String)
    (pv li ts hs rh : PyVal)
    (hcert : pyB64decode env cert_raw = .ok certificate)
    (hpk : env.extractPublicKey certificate = .ok pk)
    (hsig : env.verifySignature sig pk artifact = true)
    (htr : pyTruthy pv = true)
    (hlh : env.computeLeafHash body = .ok lh)
    (hli : pySubscript pv ("logIndex") = .ok li)
    (hts : pySubscript pv ("treeSize") = .ok ts)
    (hhs : pySubscript pv ("hashes") = .ok hs)
    (hrh : pySubscript pv ("rootHash") = .ok rh) :
    (env.verifyInclusion li ts lh hs rh = .error .rootMismatch →
      (inclusionVerifyStage env body sig cert_raw artifact (.ok pv)).1 = .ok false) ∧
    (∀ e : MerkleErr, e ≠ .rootMismatch →
      env.verifyInclusion li ts lh hs rh = .error e →
      (inclusionVerifyStage env body sig cert_raw artifact (.ok pv)).1 =
        .error (merkleErrToPy e)) := by
  constructor
  · intro hv
    simp [inclusionVerifyStage, hcert, hpk, hsig, htr, hlh, hli, hts, hhs, hrh, hv]
  · intro e hne hv
    cases e with
    | rootMismatch => exact absurd rfl hne
    | invalidProof =>
      simp [inclusionVerifyStage, hcert, hpk, hsig, htr, hlh, hli, hts, hhs, hrh, hv,
        merkleErrToPy]

/-- Witness for C9 at a concrete malformed proof. -/
theorem inclusion_root_mismatch_only_to_false_witness :
    wEnv.verifyInclusion (PyVal.int 1) (PyVal.int 2) [1] (PyVal.list [])
        (PyVal.str ("ugly")) = .error .invalidProof ∧
      (inclusionVerifyStage wEnv (PyVal.str ("x")) [2] (PyVal.str ("Y2VydA=="))
        ("artifact.md") (.ok wProofUgly)).1 = .error .valueError :=
  ⟨rfl,
    (inclusion_root_mismatch_only_to_false wEnv (PyVal.str ("x")) [2] [3] [7] [1]
      (PyVal.str ("Y2VydA==")) ("artifact.md") wProofUgly
      (PyVal.int 1) (PyVal.int 2) (PyVal.list []) (PyVal.str ("ugly"))
      rfl rfl rfl rfl rfl rfl rfl rfl rfl).2 MerkleErr.invalidProof (by decide) rfl⟩

/-- C10: when the underlying fetch fails, rekor_request returns None and
get_log_entry raises AttributeError from the attribute access on None; it
never returns a value, in particular never None, on a failed fetch. -/
theorem get_log_entry_raises_on_failed_fetch (fetch : Except FetchErr PyVal)
    (hfail : rekor_request fetch = Option.none) :
    get_log_entry fetch = .error .attributeError ∧
      ∀ v : PyVal, get_log_entry fetch ≠ .ok v := by
  have h1 : get_log_entry fetch = .error .attributeError := by
    unfold get_log_entry
    rw [hfail]
  exact ⟨h1, fun v hv => by rw [h1] at hv; exact absurd hv (by simp)⟩

/-- Witness for C10 at a concrete HTTP failure. -/
theorem get_log_entry_raises_on_failed_fetch_witness :
    rekor_request (Except.error FetchErr.httpError) = Option.none ∧
      get_log_entry (Except.error FetchErr.httpError) = .error .attributeError :=
  ⟨rfl, (get_log_entry_raises_on_failed_fetch (Except.error FetchErr.httpError) rfl).1⟩
